import Mathlib

/-!
Shallow embedding of the forecast-refresh pipeline of `demo.py`
(World Bank indicators dashboard).

The external statistical libraries (pandas ingestion, auto_arima, ARIMA
fitting) are out of scope per the specification: a fitted model is embedded
as an opaque function from a requested number of steps to a sequence of
floating-point values.  Everything downstream of the fitted models —
`format_years_arabic`, `update_language`, and `update_graphs` with its inner
`create_figure` — is translated directly from the source.
-/

namespace WorldBankDemo

/-- The Arabic-indic glyph for one decimal digit — the `arabic_numerals`
dictionary at demo.py line 41.  The dictionary is total on 0–9; inputs
outside 0–9 never arise since digits come from the decimal representation. -/
def arabic_numeral : Nat → Char
  | 0 => '٠'
  | 1 => '١'
  | 2 => '٢'
  | 3 => '٣'
  | 4 => '٤'
  | 5 => '٥'
  | 6 => '٦'
  | 7 => '٧'
  | 8 => '٨'
  | _ => '٩'

/-- Little-endian base-10 digit extraction with explicit fuel, so that the
kernel can evaluate it on concrete years. -/
def digits_rev_core : Nat → Nat → List Nat
  | 0, _ => []
  | _ + 1, 0 => []
  | fuel + 1, n + 1 => (n + 1) % 10 :: digits_rev_core fuel ((n + 1) / 10)

/-- The big-endian decimal digits of a natural number, as produced by
Python `str(year)` iterated character by character (demo.py line 42):
`str(0)` is `"0"`, hence the special case. -/
def nat_decimal_digits (n : Nat) : List Nat :=
  if n = 0 then [0] else (digits_rev_core n n).reverse

/-- `"".join(arabic_numerals[int(digit)] for digit in str(year))` for one
year (demo.py line 42). -/
def format_year_arabic (year : Nat) : String :=
  String.mk ((nat_decimal_digits year).map arabic_numeral)

/-- `format_years_arabic` (demo.py lines 40–42): list comprehension over the
input years. -/
def format_years_arabic (years : List Nat) : List String :=
  years.map format_year_arabic

/-- Inverse digit mapping, used only to state the round-trip property of the
Arabic numeral formatting. -/
def arabic_digit_val : Char → Option Nat
  | '٠' => some 0
  | '١' => some 1
  | '٢' => some 2
  | '٣' => some 3
  | '٤' => some 4
  | '٥' => some 5
  | '٦' => some 6
  | '٧' => some 7
  | '٨' => some 8
  | '٩' => some 9
  | _ => none

/-- Map each glyph of a character list back to its digit; fail on any
non-glyph. -/
def parse_arabic_digits : List Char → Option (List Nat)
  | [] => some []
  | c :: cs =>
      match arabic_digit_val c, parse_arabic_digits cs with
      | some d, some ds => some (d :: ds)
      | _, _ => none

/-- Reading an Arabic-indic year string back into a number: map each glyph
back to its digit, then assemble the big-endian digit list. -/
def parse_arabic_year (s : String) : Option Nat :=
  (parse_arabic_digits s.data).map (fun ds => Nat.ofDigits 10 ds.reverse)

/-- One `(label, value)` entry of the chart-type dropdown options. -/
structure StyleOption where
  label : String
  value : String
deriving DecidableEq

/-- The outputs of the `update_language` callback (demo.py lines 87–116):
main title text, layout style (direction and background colour), slider
label, and the chart-type option list. -/
structure LangBundle where
  main_title : String
  direction : String
  backgroundColor : String
  slider_label : String
  options : List StyleOption
deriving DecidableEq

/-- `update_language` (demo.py lines 94–116): branch on `language == 'EN'`,
every other value falls into the `else` (Arabic) branch. -/
def update_language (language : String) : LangBundle :=
  if language = "EN" then
    { main_title := "Economic Indicators Forecast for Oman"
      direction := "ltr"
      backgroundColor := "#f9f9f9"
      slider_label := "Adjust the Forecast Period:"
      options := [⟨"Line", "lines+markers"⟩, ⟨"Bar", "bar"⟩, ⟨"Scatter", "markers"⟩] }
  else
    { main_title := "لوحة توقعات المؤشرات الاقتصادية في عمان"
      direction := "rtl"
      backgroundColor := "#f9f9f9"
      slider_label := "تغيير عدد سنوات التوقع:"
      options := [⟨"خط", "lines+markers"⟩, ⟨"شريط", "bar"⟩, ⟨"منتشر", "markers"⟩] }

/-- An x-axis value of a trace: the EN branch passes the integer years
through unchanged, the AR branch passes formatted strings. -/
inductive XVal where
  | year (y : Nat)
  | label (s : String)
deriving DecidableEq

/-- How a trace is rendered: `go.Bar`, or `go.Scatter` with a `mode`
string. -/
inductive TraceKind where
  | bar
  | scatter (mode : String)
deriving DecidableEq

/-- One plotly trace as added by `create_figure`. -/
structure Trace where
  kind : TraceKind
  x : List XVal
  y : List Float
  name : String

instance : Inhabited Trace := ⟨⟨TraceKind.bar, [], [], ""⟩⟩

/-- One figure returned by `create_figure`: two traces plus the layout
titles set by `fig.update_layout` (demo.py line 160). -/
structure Figure where
  traces : List Trace
  title : String
  xaxis_title : String
  yaxis_title : String

/-- The interpolated historical table `country_data`: the `Year` index and
the four indicator columns. -/
structure CountryData where
  years : List Nat
  gdp : List Float
  gdp_per_capita : List Float
  inflation : List Float
  anni : List Float

/-- The four fitted models (demo.py lines 34–37), each opaque: a function
from the requested number of steps to a forecast sequence. -/
structure ModelBank where
  gdp_model_fit : Int → List Float
  gdp_pc_model_fit : Int → List Float
  inflation_model_fit : Int → List Float
  anni_model_fit : Int → List Float

/-- The read-only process state `update_graphs` closes over. -/
structure Env where
  country_data : CountryData
  bank : ModelBank

/-- `int(country_data.index.max())` (demo.py line 133); Python `max` of a
nonempty sequence. -/
def index_max : List Nat → Nat
  | [] => 0
  | y :: ys => ys.foldl max y

/-- `[last_year + i for i in range(1, forecast_years + 1)]`
(demo.py line 134); for a non-positive `forecast_years` the Python range is
empty. -/
def new_forecast_years (last_year : Nat) (forecast_years : Int) : List Nat :=
  (List.range forecast_years.toNat).map (fun i => last_year + i + 1)

/-- The Forecast Engine step of `update_graphs` (demo.py lines 127–130):
one `Model.forecast(steps=forecast_years)` call per indicator, in the fixed
indicator order. -/
def forecast_all (bank : ModelBank) (horizon : Int) :
    List Float × List Float × List Float × List Float :=
  (bank.gdp_model_fit horizon, bank.gdp_pc_model_fit horizon,
   bank.inflation_model_fit horizon, bank.anni_model_fit horizon)

/-- The language-dependent locals assigned in the branch at demo.py
lines 137–150. -/
structure GraphLabels where
  historical_years : List XVal
  forecast_years_formatted : List XVal
  gdp_title : String
  gdp_pc_title : String
  inflation_title : String
  anni_title : String
  xaxis_title : String
  yaxis_title : String
  legend_historical : String
  legend_forecast : String

/-- The `if language == 'AR': ... else: ...` block of `update_graphs`
(demo.py lines 137–150). -/
def graph_labels (language : String) (years nfy : List Nat) : GraphLabels :=
  if language = "AR" then
    { historical_years := (format_years_arabic years).map XVal.label
      forecast_years_formatted := (format_years_arabic nfy).map XVal.label
      gdp_title := "الناتج المحلي الإجمالي"
      gdp_pc_title := "نصيب الفرد من الناتج المحلي الإجمالي"
      inflation_title := "التضخم"
      anni_title := "الدخل القومي الصافي المعدل"
      xaxis_title := "السنة"
      yaxis_title := "القيمة"
      legend_historical := "تاريخي"
      legend_forecast := "توقع" }
  else
    { historical_years := years.map XVal.year
      forecast_years_formatted := nfy.map XVal.year
      gdp_title := "GDP"
      gdp_pc_title := "GDP per Capita"
      inflation_title := "Inflation"
      anni_title := "Adjusted Net National Income"
      xaxis_title := "Year"
      yaxis_title := "Value"
      legend_historical := "Historical"
      legend_forecast := "Forecast" }

/-- The inner `create_figure` (demo.py lines 152–161): closure variables
passed explicitly.  Note the layout's y-axis title is the `y_title`
parameter, which every call site sets to the chart title. -/
def create_figure (chart_type : String) (L : GraphLabels)
    (title : String) (historical_data forecast_data : List Float)
    (y_title : String) : Figure :=
  let traces :=
    if chart_type = "bar" then
      [Trace.mk TraceKind.bar L.historical_years historical_data L.legend_historical,
       Trace.mk TraceKind.bar L.forecast_years_formatted forecast_data L.legend_forecast]
    else
      [Trace.mk (TraceKind.scatter chart_type) L.historical_years historical_data L.legend_historical,
       Trace.mk (TraceKind.scatter chart_type) L.forecast_years_formatted forecast_data L.legend_forecast]
  { traces := traces, title := title, xaxis_title := L.xaxis_title, yaxis_title := y_title }

/-- demo.py lines 132–168: everything in `update_graphs` after the four
forecast calls, building the four figures in fixed indicator order. -/
def build_figures (data : CountryData)
    (gdp_forecast gdp_pc_forecast inflation_forecast anni_forecast : List Float)
    (forecast_years : Int) (language chart_type : String) :
    Figure × Figure × Figure × Figure :=
  let last_year := index_max data.years
  let nfy := new_forecast_years last_year forecast_years
  let L := graph_labels language data.years nfy
  (create_figure chart_type L L.gdp_title data.gdp gdp_forecast L.gdp_title,
   create_figure chart_type L L.gdp_pc_title data.gdp_per_capita gdp_pc_forecast L.gdp_pc_title,
   create_figure chart_type L L.inflation_title data.inflation inflation_forecast L.inflation_title,
   create_figure chart_type L L.anni_title data.anni anni_forecast L.anni_title)

/-- `update_graphs` (demo.py lines 125–168): forecast each indicator with
the raw slider value, then build the four figures. -/
def update_graphs (env : Env) (forecast_years : Int) (language chart_type : String) :
    Figure × Figure × Figure × Figure :=
  build_figures env.country_data
    (env.bank.gdp_model_fit forecast_years)
    (env.bank.gdp_pc_model_fit forecast_years)
    (env.bank.inflation_model_fit forecast_years)
    (env.bank.anni_model_fit forecast_years)
    forecast_years language chart_type

/-- A read of one model, returning the state it read from unchanged: in the
source every statement of `update_graphs` is a read of the module-level
state, never a write. -/
def read_model (f : ModelBank → Int → List Float) (env : Env) (s : Int) :
    List Float × Env :=
  (f env.bank s, env)

/-- State-passing version of `update_graphs`, threading the process state
through every read so the absence of mutation is explicit. -/
def update_graphs_st (env : Env) (forecast_years : Int) (language chart_type : String) :
    (Figure × Figure × Figure × Figure) × Env :=
  let s1 := read_model ModelBank.gdp_model_fit env forecast_years
  let s2 := read_model ModelBank.gdp_pc_model_fit s1.2 forecast_years
  let s3 := read_model ModelBank.inflation_model_fit s2.2 forecast_years
  let s4 := read_model ModelBank.anni_model_fit s3.2 forecast_years
  (build_figures s4.2.country_data s1.1 s2.1 s3.1 s4.1 forecast_years language chart_type,
   s4.2)

/-- The kinds of the traces of one figure, in order. -/
def trace_kinds (f : Figure) : List TraceKind :=
  f.traces.map Trace.kind

/-- A concrete process state used to instantiate the universally quantified
theorems: three historical years ending at 2022 and models honouring the
length contract. -/
def env0 : Env :=
  { country_data :=
      { years := [2020, 2021, 2022]
        gdp := [1.0, 2.0, 3.0]
        gdp_per_capita := [4.0, 5.0, 6.0]
        inflation := [7.0, 8.0, 9.0]
        anni := [10.0, 11.0, 12.0] }
    bank :=
      { gdp_model_fit := fun s => List.replicate s.toNat 0.5
        gdp_pc_model_fit := fun s => List.replicate s.toNat 1.5
        inflation_model_fit := fun s => List.replicate s.toNat 2.5
        anni_model_fit := fun s => List.replicate s.toNat 3.5 } }

lemma digits_rev_core_eq (fuel n : Nat) (h : n ≤ fuel) :
    digits_rev_core fuel n = Nat.digits 10 n := by
  induction fuel generalizing n with
  | zero =>
      interval_cases n
      simp [digits_rev_core]
  | succ f ih =>
      cases n with
      | zero => simp [digits_rev_core]
      | succ m =>
          rw [Nat.digits_def' (by norm_num : (1:Nat) < 10) (Nat.succ_pos m)]
          simp only [digits_rev_core]
          rw [ih ((m + 1) / 10) (by omega)]

lemma arabic_digit_val_arabic_numeral {d : Nat} (hd : d < 10) :
    arabic_digit_val (arabic_numeral d) = some d := by
  interval_cases d <;> rfl

lemma parse_arabic_digits_map (ds : List Nat) (h : ∀ d ∈ ds, d < 10) :
    parse_arabic_digits (ds.map arabic_numeral) = some ds := by
  induction ds with
  | nil => rfl
  | cons d t ih =>
      have hd : d < 10 := h d (List.mem_cons_self d t)
      have ht := ih (fun x hx => h x (List.mem_cons_of_mem d hx))
      simp [parse_arabic_digits, arabic_digit_val_arabic_numeral hd, ht]

lemma nat_decimal_digits_lt (n : Nat) : ∀ d ∈ nat_decimal_digits n, d < 10 := by
  intro d hd
  unfold nat_decimal_digits at hd
  split at hd
  · simp at hd
    omega
  · rw [digits_rev_core_eq n n le_rfl] at hd
    exact Nat.digits_lt_base (by norm_num) (List.mem_reverse.mp hd)

lemma parse_format_year (n : Nat) : parse_arabic_year (format_year_arabic n) = some n := by
  unfold parse_arabic_year format_year_arabic
  have hdata : (String.mk ((nat_decimal_digits n).map arabic_numeral)).data
      = (nat_decimal_digits n).map arabic_numeral := rfl
  rw [hdata, parse_arabic_digits_map _ (nat_decimal_digits_lt n)]
  unfold nat_decimal_digits
  by_cases h0 : n = 0
  · subst h0
    simp [Nat.ofDigits]
  · simp [h0, digits_rev_core_eq n n le_rfl, Nat.ofDigits_digits]

lemma le_foldl_max (t : List Nat) (a : Nat) : a ≤ t.foldl max a := by
  induction t generalizing a with
  | nil => simp
  | cons b t ih => exact le_trans (le_max_left a b) (ih (max a b))

lemma mem_le_foldl_max (t : List Nat) (a y : Nat) (hy : y ∈ t) : y ≤ t.foldl max a := by
  induction t generalizing a with
  | nil => cases hy
  | cons b t ih =>
      rcases List.mem_cons.mp hy with rfl | hmem
      · exact le_trans (le_max_right a y) (le_foldl_max t (max a y))
      · exact ih (max a b) hmem

lemma mem_le_index_max (years : List Nat) (y : Nat) (hy : y ∈ years) :
    y ≤ index_max years := by
  cases years with
  | nil => cases hy
  | cons a t =>
      rcases List.mem_cons.mp hy with rfl | hmem
      · exact le_foldl_max t y
      · exact mem_le_foldl_max t a y hmem

/-- C5: Arabic year formatting substitutes each decimal digit by its
Arabic-indic glyph in the original left-to-right order (2021 becomes
"٢٠٢١"), and the substitution is invertible: mapping glyphs back to digits
recovers the year, for every year in [1900, 2100]. -/
theorem arabic_year_format_roundtrip :
    format_year_arabic 2021 = "٢٠٢١" ∧
    format_years_arabic [2021] = ["٢٠٢١"] ∧
    ∀ y : Nat, 1900 ≤ y → y ≤ 2100 →
      parse_arabic_year (format_year_arabic y) = some y := by
  refine ⟨by decide, by decide, ?_⟩
  intro y _ _
  exact parse_format_year y

/-- Witness for C5 at year 2024. -/
theorem arabic_year_format_roundtrip_witness :
    1900 ≤ 2024 ∧ 2024 ≤ 2100 ∧
    parse_arabic_year (format_year_arabic 2024) = some 2024 :=
  ⟨by decide, by decide,
    arabic_year_format_roundtrip.2.2 2024 (by decide) (by decide)⟩

/-- C8: both language bundles are complete records (every field of
`LangBundle` is populated by construction in both branches), their
chart-style option lists carry the same style-value tokens in the same
order, and the two bundles differ only in display strings and layout
direction — the background colour is shared and the option values are
language-independent. -/
theorem locale_bundles_complete_and_aligned :
    (update_language "EN").options.map StyleOption.value
      = ["lines+markers", "bar", "markers"] ∧
    (update_language "AR").options.map StyleOption.value
      = ["lines+markers", "bar", "markers"] ∧
    (update_language "EN").direction = "ltr" ∧
    (update_language "AR").direction = "rtl" ∧
    (update_language "EN").backgroundColor = (update_language "AR").backgroundColor ∧
    (update_language "EN").main_title ≠ (update_language "AR").main_title ∧
    (update_language "EN").slider_label ≠ (update_language "AR").slider_label := by
  decide

/-- C3 counterexample: the claim says resolving "FR" fails with
`InvalidSelectorError`, but `update_language` is total — its `else` branch
catches every non-"EN" value — so "FR" silently yields the full Arabic
bundle. -/
theorem unknown_language_no_error :
    update_language "FR" = update_language "AR" ∧
    (update_language "FR").direction = "rtl" ∧
    (update_language "FR").main_title = "لوحة توقعات المؤشرات الاقتصادية في عمان" := by
  decide

/-- C3 (amended): resolving any language value other than "EN" — including
values outside {EN, AR} such as "FR" — does not fail; the controller
silently substitutes the Arabic bundle. -/
theorem unknown_language_defaults_arabic (language : String)
    (hne : language ≠ "EN") :
    update_language language = update_language "AR" := by
  simp [update_language, hne]

/-- Witness for the amended C3 at language "FR". -/
theorem unknown_language_defaults_arabic_witness :
    "FR" ≠ "EN" ∧ update_language "FR" = update_language "AR" :=
  ⟨by decide, unknown_language_defaults_arabic "FR" (by decide)⟩

/-- C2 counterexample: the claim says a non-positive horizon fails with
`InvalidHorizonError`; instead `update_graphs` at horizon 0 performs no
validation and returns four ordinary figures whose forecast traces have an
empty x-axis. -/
theorem horizon_zero_no_error :
    new_forecast_years (index_max env0.country_data.years) 0 = [] ∧
    (update_graphs env0 0 "EN" "lines+markers").1.traces.map Trace.x
      = [[XVal.year 2020, XVal.year 2021, XVal.year 2022], []] := by
  exact ⟨rfl, rfl⟩

/-- C2 (amended): the chart-refresh code contains no horizon validation: a
non-positive horizon is neither rejected nor clamped — the raw value is
passed through to every model, and the forecast-year list comes out
empty. -/
theorem nonpositive_horizon_proceeds (env : Env) (h : Int) (hn : h ≤ 0)
    (ct : String) :
    new_forecast_years (index_max env.country_data.years) h = [] ∧
    (update_graphs env h "EN" ct).1.traces.map Trace.y
      = [env.country_data.gdp, env.bank.gdp_model_fit h] := by
  have htn : h.toNat = 0 := Int.toNat_of_nonpos hn
  constructor
  · simp [new_forecast_years, htn]
  · by_cases hc : ct = "bar" <;>
      simp [update_graphs, build_figures, create_figure, graph_labels, hc]

/-- Witness for the amended C2 at horizon 0 on the concrete state. -/
theorem nonpositive_horizon_proceeds_witness :
    (0 : Int) ≤ 0 ∧
    new_forecast_years (index_max env0.country_data.years) 0 = [] :=
  ⟨by decide, (nonpositive_horizon_proceeds env0 0 (by decide) "bar").1⟩

/-- C7: the chart-refresh computation is deterministic and free of side
effects: threading the process state through every read returns it
unchanged, the produced figures agree with the pure function, and a second
invocation from the resulting state yields identical output. -/
theorem update_graphs_deterministic_pure (env : Env) (h : Int)
    (language chart_type : String) :
    (update_graphs_st env h language chart_type).2 = env ∧
    (update_graphs_st env h language chart_type).1
      = update_graphs env h language chart_type ∧
    (update_graphs_st (update_graphs_st env h language chart_type).2
        h language chart_type).1
      = (update_graphs_st env h language chart_type).1 :=
  ⟨rfl, rfl, rfl⟩

/-- C1: for every horizon h ≥ 1 the forecast-trace x-periods computed by
`update_graphs` (lines 133–134) are exactly `last_historical_year + 1 ..
last_historical_year + h`: the list has length h, its i-th entry is
`last_year + i + 1`, it is strictly increasing with no gaps, it never meets
a historical period, and under EN it is exactly the x-axis of the forecast
trace of the produced figure. -/
theorem forecast_years_contiguous (years : List Nat) (h : Int) (h1 : 1 ≤ h) :
    (new_forecast_years (index_max years) h).length = h.toNat ∧
    (∀ i, i < h.toNat →
      (new_forecast_years (index_max years) h).getD i 0 = index_max years + i + 1) ∧
    List.Pairwise (· < ·) (new_forecast_years (index_max years) h) ∧
    (∀ y ∈ years, y ∉ new_forecast_years (index_max years) h) ∧
    (∀ env : Env, env.country_data.years = years → ∀ ct,
      ((update_graphs env h "EN" ct).1.traces.getD 1 default).x
        = (new_forecast_years (index_max years) h).map XVal.year) := by
  refine ⟨?_, ?_, ?_, ?_, ?_⟩
  · simp [new_forecast_years]
  · intro i hi
    simp [new_forecast_years, List.getD_eq_getElem?_getD, List.getElem?_map,
      List.getElem?_range, hi]
  · refine List.Pairwise.map _ ?_ (List.pairwise_lt_range h.toNat)
    intro a b hab
    omega
  · intro y hy hmem
    rcases List.mem_map.mp hmem with ⟨i, _, hiy⟩
    have hle : y ≤ index_max years := mem_le_index_max years y hy
    omega
  · intro env he ct
    subst he
    by_cases hc : ct = "bar" <;>
      simp [update_graphs, build_figures, create_figure, graph_labels, hc]

/-- Witness for C1 at horizon 3 over the years 2020–2022. -/
theorem forecast_years_contiguous_witness :
    (1 : Int) ≤ 3 ∧
    (new_forecast_years (index_max [2020, 2021, 2022]) 3).length = (3 : Int).toNat :=
  ⟨by decide, (forecast_years_contiguous [2020, 2021, 2022] 3 (by decide)).1⟩

/-- C4: on every refresh, if the style token is "bar" each of the four
figures holds exactly two bar traces; for any other token each holds
exactly two scatter traces whose mode is the token passed through
verbatim. -/
theorem style_token_trace_kinds (env : Env) (h : Int) (language ct : String) :
    trace_kinds (update_graphs env h language ct).1
      = (if ct = "bar" then [TraceKind.bar, TraceKind.bar]
         else [TraceKind.scatter ct, TraceKind.scatter ct]) ∧
    trace_kinds (update_graphs env h language ct).2.1
      = (if ct = "bar" then [TraceKind.bar, TraceKind.bar]
         else [TraceKind.scatter ct, TraceKind.scatter ct]) ∧
    trace_kinds (update_graphs env h language ct).2.2.1
      = (if ct = "bar" then [TraceKind.bar, TraceKind.bar]
         else [TraceKind.scatter ct, TraceKind.scatter ct]) ∧
    trace_kinds (update_graphs env h language ct).2.2.2
      = (if ct = "bar" then [TraceKind.bar, TraceKind.bar]
         else [TraceKind.scatter ct, TraceKind.scatter ct]) := by
  by_cases hc : ct = "bar" <;>
    simp [trace_kinds, update_graphs, build_figures, create_figure, hc]

/-- C6: under the stated model contract (a model returns exactly the
requested number of steps), `forecast_all` returns a sequence of length
exactly h for each of the four indicators, for every valid horizon. -/
theorem forecast_all_lengths (bank : ModelBank) (h : Int)
    (h1 : 1 ≤ h) (h10 : h ≤ 10)
    (cgdp : ∀ s : Int, 1 ≤ s → (bank.gdp_model_fit s).length = s.toNat)
    (cpc : ∀ s : Int, 1 ≤ s → (bank.gdp_pc_model_fit s).length = s.toNat)
    (cinf : ∀ s : Int, 1 ≤ s → (bank.inflation_model_fit s).length = s.toNat)
    (cann : ∀ s : Int, 1 ≤ s → (bank.anni_model_fit s).length = s.toNat) :
    (forecast_all bank h).1.length = h.toNat ∧
    (forecast_all bank h).2.1.length = h.toNat ∧
    (forecast_all bank h).2.2.1.length = h.toNat ∧
    (forecast_all bank h).2.2.2.length = h.toNat :=
  ⟨cgdp h h1, cpc h h1, cinf h h1, cann h h1⟩

/-- Witness for C6 at horizon 5 with the concrete model bank. -/
theorem forecast_all_lengths_witness :
    (1 : Int) ≤ 5 ∧ (5 : Int) ≤ 10 ∧
    (forecast_all env0.bank 5).1.length = (5 : Int).toNat :=
  ⟨by decide, by decide,
    (forecast_all_lengths env0.bank 5 (by decide) (by decide)
      (fun s _ => by simp [env0])
      (fun s _ => by simp [env0])
      (fun s _ => by simp [env0])
      (fun s _ => by simp [env0])).1⟩

/-- C9: when the historical series ends at 2022, refreshing with horizon 3,
language EN and style "bar" yields four figures in the fixed indicator
order with the English titles, two bar traces each, and forecast x-values
2023, 2024, 2025. -/
theorem scenario_end2022_en_bar (env : Env)
    (hmax : index_max env.country_data.years = 2022) :
    (update_graphs env 3 "EN" "bar").1.title = "GDP" ∧
    (update_graphs env 3 "EN" "bar").2.1.title = "GDP per Capita" ∧
    (update_graphs env 3 "EN" "bar").2.2.1.title = "Inflation" ∧
    (update_graphs env 3 "EN" "bar").2.2.2.title = "Adjusted Net National Income" ∧
    trace_kinds (update_graphs env 3 "EN" "bar").1 = [TraceKind.bar, TraceKind.bar] ∧
    trace_kinds (update_graphs env 3 "EN" "bar").2.1 = [TraceKind.bar, TraceKind.bar] ∧
    trace_kinds (update_graphs env 3 "EN" "bar").2.2.1 = [TraceKind.bar, TraceKind.bar] ∧
    trace_kinds (update_graphs env 3 "EN" "bar").2.2.2 = [TraceKind.bar, TraceKind.bar] ∧
    ((update_graphs env 3 "EN" "bar").1.traces.getD 1 default).x
      = [XVal.year 2023, XVal.year 2024, XVal.year 2025] ∧
    ((update_graphs env 3 "EN" "bar").2.1.traces.getD 1 default).x
      = [XVal.year 2023, XVal.year 2024, XVal.year 2025] ∧
    ((update_graphs env 3 "EN" "bar").2.2.1.traces.getD 1 default).x
      = [XVal.year 2023, XVal.year 2024, XVal.year 2025] ∧
    ((update_graphs env 3 "EN" "bar").2.2.2.traces.getD 1 default).x
      = [XVal.year 2023, XVal.year 2024, XVal.year 2025] := by
  simp [update_graphs, build_figures, create_figure, graph_labels, trace_kinds,
    new_forecast_years, hmax, List.range_succ]

/-- Witness for C9 on the concrete state whose series ends at 2022. -/
theorem scenario_end2022_en_bar_witness :
    index_max env0.country_data.years = 2022 ∧
    (update_graphs env0 3 "EN" "bar").1.title = "GDP" :=
  ⟨rfl, (scenario_end2022_en_bar env0 rfl).1⟩

/-- C10: for a language token outside {EN, AR} the two callbacks default in
opposite directions: `update_language` falls into its `else` branch and
returns the Arabic bundle (rtl layout), while `update_graphs` falls into
its `else` branch and builds the charts with English titles, English axis
labels, and unformatted integer years — layout language and chart language
disagree. -/
theorem language_fallback_mismatch (language : String)
    (hEN : language ≠ "EN") (hAR : language ≠ "AR") :
    update_language language = update_language "AR" ∧
    (update_language language).direction = "rtl" ∧
    (∀ (env : Env) (h : Int) (ct : String),
      update_graphs env h language ct = update_graphs env h "EN" ct) ∧
    (∀ (env : Env) (h : Int) (ct : String),
      (update_graphs env h language ct).1.title = "GDP" ∧
      (update_graphs env h language ct).1.xaxis_title = "Year" ∧
      (update_graphs env h language ct).1.traces.map Trace.x
        = [env.country_data.years.map XVal.year,
           (new_forecast_years (index_max env.country_data.years) h).map XVal.year]) := by
  refine ⟨?_, ?_, ?_, ?_⟩
  · simp [update_language, hEN]
  · simp [update_language, hEN]
  · intro env h ct
    simp [update_graphs, build_figures, graph_labels, hAR]
  · intro env h ct
    by_cases hc : ct = "bar" <;>
      simp [update_graphs, build_figures, create_figure, graph_labels, hAR, hc]

/-- Witness for C10 at language "FR". -/
theorem language_fallback_mismatch_witness :
    "FR" ≠ "EN" ∧ "FR" ≠ "AR" ∧ (update_language "FR").direction = "rtl" :=
  ⟨by decide, by decide,
    (language_fallback_mismatch "FR" (by decide) (by decide)).2.1⟩

end WorldBankDemo
